import Mathlib

/-!
Verification development for the BLE-to-USB HID bridge (src/src/main.c).

The C program is a Zephyr application: a BLE central that connects to a
Kinesis keyboard, subscribes to its HID report characteristic and forwards
8-byte boot-protocol reports to a USB HID endpoint (the "Report Sink").

Shallow embedding: each C handler becomes a Lean function from an explicit
bridge state (the module-level statics of main.c) to a new state plus a
trace of externally visible commands (sink writes, scan/connect calls,
sleeps, settings writes).  Results of fallible collaborator calls
(bt_le_scan_start, bt_le_scan_stop, bt_conn_le_create, bt_gatt_subscribe)
are supplied by an environment record of error codes, 0 meaning success.
-/

namespace BleBridge

/-- bt_addr_le_t: address type byte plus six address bytes. -/
structure Addr where
  atype : Nat
  bytes : List Nat
deriving DecidableEq, Repr

/-- memset(&keyboard_addr, 0, sizeof(keyboard_addr)). -/
def zeroAddr : Addr := ⟨0, List.replicate 6 0⟩

/-- The all-zero 8-byte HID report (initial value of hid_report, and the
value written on disconnect). -/
def zeroReport : List Nat := List.replicate 8 0

/-- Module-level mutable state of main.c. `current_conn` is the single
connection slot (bt_conn pointer, modelled by an id); `stored_record` is
the persisted "ble_bridge/addr" settings entry; `scanning` is the BLE
controller scan state driven by bt_le_scan_start / bt_le_scan_stop. -/
structure BridgeState where
  current_conn : Option Nat
  keyboard_addr : Addr
  keyboard_paired : Bool
  hid_report : List Nat
  usb_configured : Bool
  hid_dev : Bool
  scanning : Bool
  sub_value_handle : Nat
  button_press_time : Nat
  button_double_press : Bool
  stored_record : Option Addr
deriving DecidableEq, Repr

/-- Externally visible commands issued by the handlers. -/
inductive Cmd where
  | sinkWrite (bytes : List Nat)
  | scanStart
  | scanStop
  | connCreate (a : Addr)
  | disconnectConn
  | sleepMs (ms : Nat)
  | settingsSave (v : Option Addr)
deriving DecidableEq, Repr

/-- Error codes returned by the fallible collaborator calls; 0 = success. -/
structure Env where
  connCreateErr : Int
  scanStartErr : Int
  scanStopErr : Int
deriving DecidableEq, Repr

/-- start_scan (main.c:429): no-op if already connected; otherwise calls
bt_le_scan_start and returns on failure (no retry is scheduled there). -/
def start_scan (env : Env) (s : BridgeState) : BridgeState × List Cmd :=
  if s.current_conn.isSome then (s, [])
  else
    if env.scanStartErr ≠ 0 then (s, [Cmd.scanStart])
    else ({ s with scanning := true }, [Cmd.scanStart])

/-- attempt_reconnect (main.c:458): no-op if already connected; delegates to
start_scan when not paired; otherwise issues bt_conn_le_create on the saved
keyboard_addr and falls back to start_scan when that call fails. -/
def attempt_reconnect (env : Env) (s : BridgeState) : BridgeState × List Cmd :=
  if s.current_conn.isSome then (s, [])
  else if ¬ s.keyboard_paired then start_scan env s
  else
    if env.connCreateErr ≠ 0 then
      let r := start_scan env s
      (r.1, Cmd.connCreate s.keyboard_addr :: r.2)
    else (s, [Cmd.connCreate s.keyboard_addr])

/-- Iterator result of GATT callbacks (BT_GATT_ITER_STOP / _CONTINUE). -/
inductive Iter where
  | stop
  | cont
deriving DecidableEq, Repr

/-- notify_func (main.c:133): a null payload clears the stored value handle
and stops; a payload of at least 8 bytes is copied (memcpy of 8 bytes) into
hid_report and, when USB is configured and the HID device exists, written to
the sink; shorter payloads fall through untouched. -/
def notify_func (s : BridgeState) (data : Option (List Nat)) :
    BridgeState × List Cmd × Iter :=
  match data with
  | none => ({ s with sub_value_handle := 0 }, [], Iter.stop)
  | some d =>
    if 8 ≤ d.length then
      let s1 := { s with hid_report := d.take 8 }
      let c : List Cmd :=
        if s1.usb_configured ∧ s1.hid_dev then [Cmd.sinkWrite s1.hid_report] else []
      (s1, c, Iter.cont)
    else (s, [], Iter.cont)

/-- disconnected (main.c:334): releases current_conn, zeroes hid_report and
pushes it to the sink when USB is up, sleeps the 1 s backoff, then calls
attempt_reconnect when paired and start_scan otherwise. -/
def disconnected (env : Env) (s : BridgeState) (_reason : Nat) :
    BridgeState × List Cmd :=
  let s1 := { s with current_conn := none, hid_report := zeroReport }
  let c1 : List Cmd :=
    if s1.usb_configured ∧ s1.hid_dev then [Cmd.sinkWrite zeroReport] else []
  let next := if s1.keyboard_paired then attempt_reconnect env s1 else start_scan env s1
  (next.1, c1 ++ Cmd.sleepMs 1000 :: next.2)

/-- Zephyr errno value for EALREADY (minimal libc). bt_gatt_subscribe
returns -EALREADY when the subscription already exists. -/
def EALREADY : Int := 120

/-- One bt_gatt_subscribe call's parameters, as set up by
subscribe_to_reports (value, notify callback and flags are fixed). -/
structure SubAttempt where
  value_handle : Nat
  ccc_handle : Nat
  end_handle : Nat
deriving DecidableEq, Repr

/-- subscribe_to_reports (main.c:165): first bt_gatt_subscribe call uses the
heuristic ccc_handle = value_handle + 1; on an error other than -EALREADY it
retries once with ccc_handle = 0 (auto-discovery) and end_handle =
value_handle + 5; a second non -EALREADY error leaves the relay
unsubscribed.  r1 and r2 are the two calls' results; the value returned is
the list of attempted parameter sets and whether a subscription holds. -/
def subscribe_to_reports (r1 r2 : Int) (vh : Nat) : List SubAttempt × Bool :=
  let a1 : SubAttempt := ⟨vh, vh + 1, 0⟩
  if r1 ≠ 0 ∧ r1 ≠ -EALREADY then
    let a2 : SubAttempt := ⟨vh, 0, vh + 5⟩
    if r2 ≠ 0 ∧ r2 ≠ -EALREADY then ([a1, a2], false)
    else ([a1, a2], true)
  else ([a1], true)

/-- UUID of the HID service (BT_UUID_HIDS_VAL). -/
def hidsUuid : Nat := 0x1812

/-- UUID of the HID report characteristic (BT_UUID_HIDS_REPORT_VAL). -/
def reportUuid : Nat := 0x2a4d

/-- Discovery type (BT_GATT_DISCOVER_PRIMARY / _CHARACTERISTIC). -/
inductive DiscType where
  | primary
  | characteristic
deriving DecidableEq, Repr

/-- bt_gatt_discover_params as used by main.c: the filter UUID, the
discovery type and the handle range. -/
structure DiscParams where
  uuid : Nat
  dtype : DiscType
  start_handle : Nat
  end_handle : Nat
deriving DecidableEq, Repr

/-- A discovered attribute: its handle and, for a characteristic
declaration, the value handle reported by bt_gatt_attr_value_handle. -/
structure Attr where
  handle : Nat
  valueHandle : Nat
deriving DecidableEq, Repr

/-- The statics of discover_func: service_found and service_handle. -/
structure DiscState where
  service_found : Bool
  service_handle : Nat
deriving DecidableEq, Repr

/-- Side effect requested by one discover_func invocation: nothing, a new
bt_gatt_discover call, or a hand-off to subscribe_to_reports. -/
inductive DiscAction where
  | none_
  | discover (p : DiscParams)
  | subscribe (vh : Nat)
deriving DecidableEq, Repr

/-- discover_func (main.c:195).  Null attr: in the primary phase with a
recorded service it clears service_found and issues the characteristic-phase
discover from service_handle to 0xffff, else discovery is complete.
Non-null attr: the primary phase records every attribute whose filter UUID
is the HID service UUID and continues; the characteristic phase subscribes
to the first match's value handle and stops. -/
def discover_func (ds : DiscState) (params : DiscParams) (attr : Option Attr) :
    DiscState × DiscAction × Iter :=
  match attr with
  | none =>
    if params.dtype = DiscType.primary ∧ ds.service_found then
      (⟨false, ds.service_handle⟩,
       DiscAction.discover ⟨reportUuid, DiscType.characteristic, ds.service_handle, 0xffff⟩,
       Iter.stop)
    else (ds, DiscAction.none_, Iter.stop)
  | some a =>
    match params.dtype with
    | DiscType.primary =>
      if params.uuid = hidsUuid then
        (⟨true, a.handle⟩, DiscAction.none_, Iter.cont)
      else (ds, DiscAction.none_, Iter.cont)
    | DiscType.characteristic =>
      if params.uuid = reportUuid then
        (ds, DiscAction.subscribe a.valueHandle, Iter.stop)
      else (ds, DiscAction.none_, Iter.cont)

/-- Driver for one bt_gatt_discover pass: the collaborator delivers the
matching attributes in handle order and then a terminal null callback,
stopping early when the callback returns BT_GATT_ITER_STOP.  Returns the
final statics and the last requested action. -/
def runPhase (ds : DiscState) (p : DiscParams) : List Attr → DiscState × DiscAction
  | [] =>
    let r := discover_func ds p none
    (r.1, r.2.1)
  | a :: rest =>
    let r := discover_func ds p (some a)
    match r.2.2 with
    | Iter.stop => (r.1, r.2.1)
    | Iter.cont => runPhase r.1 p rest

/-- Both discovery passes as wired up by connected (main.c:321): a primary
pass over the full handle range filtered by the HID service UUID, then, if
it requested one, the characteristic pass it set up.  Returns the value
handle handed to subscribe_to_reports, if any. -/
def runDiscovery (svc chr : List Attr) : Option Nat :=
  let p0 : DiscParams := ⟨hidsUuid, DiscType.primary, 1, 0xffff⟩
  let r1 := runPhase ⟨false, 0⟩ p0 svc
  match r1.2 with
  | DiscAction.discover p1 =>
    let r2 := runPhase r1.1 p1 chr
    match r2.2 with
    | DiscAction.subscribe vh => some vh
    | _ => none
  | DiscAction.subscribe vh => some vh
  | DiscAction.none_ => none

/-- TARGET_DEVICE_NAME. -/
def targetName : List Char := "Adv360 Pro".toList

/-- TARGET_DEVICE_NAME_ALT. -/
def targetNameAlt : List Char := "Adv360 Pro R".toList

/-- TARGET_DEVICE_NAME_ALT2. -/
def targetNameAlt2 : List Char := "Adv360 Pro L".toList

/-- Character-list version of "needle starts the haystack". -/
def startsWithL : List Char → List Char → Bool
  | [], _ => true
  | _ :: _, [] => false
  | a :: as, b :: bs => a = b && startsWithL as bs

/-- strstr(hay, needle) != NULL: the needle occurs somewhere in the hay. -/
def occursIn : List Char → List Char → Bool
  | needle, [] => needle.isEmpty
  | needle, c :: rest => startsWithL needle (c :: rest) || occursIn needle rest

/-- BT_DATA_NAME_SHORTENED. -/
def nameShortened : Nat := 0x08

/-- BT_DATA_NAME_COMPLETE. -/
def nameComplete : Nat := 0x09

/-- device_found (main.c:370), the bt_data_parse callback.  On a name field
matching one of the target names it stops the scan (returning true and
doing nothing more if bt_le_scan_stop fails), sleeps 100 ms, then calls
bt_conn_le_create on the advertiser's address; on create failure it sleeps
the 1 s backoff and calls start_scan.  The Bool is the parse-continue
flag. -/
def device_found (env : Env) (s : BridgeState) (addr : Addr) (dtype : Nat)
    (dataBytes : List Char) : BridgeState × List Cmd × Bool :=
  if dtype = nameComplete ∨ dtype = nameShortened then
    let name := dataBytes.take 29
    if occursIn targetName name || occursIn targetNameAlt name ||
        occursIn targetNameAlt2 name then
      if env.scanStopErr ≠ 0 then (s, [Cmd.scanStop], true)
      else
        let s1 := { s with scanning := false }
        if env.connCreateErr ≠ 0 then
          let r := start_scan env s1
          (r.1, Cmd.scanStop :: Cmd.sleepMs 100 :: Cmd.connCreate addr ::
                Cmd.sleepMs 1000 :: r.2, false)
        else (s1, [Cmd.scanStop, Cmd.sleepMs 100, Cmd.connCreate addr], false)
    else (s, [], true)
  else (s, [], true)

/-- Unsigned 64-bit subtraction, as computed by `now - button_press_time`
on uint64_t operands. -/
def u64sub (a b : Nat) : Nat := (2 ^ 64 + a - b % 2 ^ 64) % 2 ^ 64

/-- button_pressed (main.c:534), the GPIO ISR: classifies the press as a
double press when it follows the previous one by less than 500 ms, updates
button_press_time unconditionally, and submits the work item. -/
def button_pressed (now : Nat) (s : BridgeState) : BridgeState :=
  { s with
    button_double_press := decide (u64sub now s.button_press_time < 500),
    button_press_time := now }

/-- The double-press branch of button_work_handler (main.c:495-518):
disconnects any live connection, clears keyboard_paired and keyboard_addr,
clears the persisted settings entry, sleeps 100 ms, starts a fresh scan and
resets button_double_press. -/
def unpair_branch (env : Env) (s : BridgeState) : BridgeState × List Cmd :=
  let c1 : List Cmd := if s.current_conn.isSome then [Cmd.disconnectConn] else []
  let s1 := { s with
    current_conn := none
    keyboard_paired := false
    keyboard_addr := zeroAddr
    stored_record := none
    button_double_press := false }
  let r := start_scan env s1
  (r.1, c1 ++ Cmd.settingsSave none :: Cmd.sleepMs 100 :: r.2)

/-- button_work_handler (main.c:493): dispatches on button_double_press;
a single press calls attempt_reconnect only when there is no live
connection and a keyboard is paired. -/
def button_work_handler (env : Env) (s : BridgeState) : BridgeState × List Cmd :=
  if s.button_double_press then unpair_branch env s
  else
    if s.current_conn.isNone ∧ s.keyboard_paired then attempt_reconnect env s
    else (s, [])

/-- An environment where every collaborator call succeeds. -/
def env0 : Env := ⟨0, 0, 0⟩

/-- Boot state with USB configured and no pairing record. -/
def idleState : BridgeState :=
  ⟨none, zeroAddr, false, zeroReport, true, true, false, 0, 0, false, none⟩

/-- A saved keyboard address used in concrete instances. -/
def addrA : Addr := ⟨1, [1, 2, 3, 4, 5, 6]⟩

/-- Idle state with a valid pairing record for addrA. -/
def pairedIdle : BridgeState :=
  { idleState with keyboard_paired := true, keyboard_addr := addrA,
                   stored_record := some addrA }

/-- State with a live connection. -/
def connState : BridgeState := { pairedIdle with current_conn := some 1 }

theorem start_scan_conn (env : Env) (s : BridgeState) :
    (start_scan env s).1.current_conn = s.current_conn := by
  unfold start_scan
  split
  · rfl
  · split <;> rfl

theorem start_scan_cmds (env : Env) (s : BridgeState) (h : s.current_conn = none) :
    (start_scan env s).2 = [Cmd.scanStart] := by
  unfold start_scan
  rw [h]
  split
  · simp_all
  · split <;> rfl

theorem start_scan_no_sink (env : Env) (s : BridgeState) (w : List Nat) :
    Cmd.sinkWrite w ∉ (start_scan env s).2 := by
  unfold start_scan
  split
  · simp
  · split <;> simp

theorem attempt_reconnect_conn (env : Env) (s : BridgeState) :
    (attempt_reconnect env s).1.current_conn = s.current_conn := by
  unfold attempt_reconnect
  split
  · rfl
  · split
    · exact start_scan_conn env s
    · split
      · exact start_scan_conn env s
      · rfl

theorem start_scan_report (env : Env) (s : BridgeState) :
    (start_scan env s).1.hid_report = s.hid_report := by
  unfold start_scan
  split
  · rfl
  · split <;> rfl

theorem attempt_reconnect_report (env : Env) (s : BridgeState) :
    (attempt_reconnect env s).1.hid_report = s.hid_report := by
  unfold attempt_reconnect
  split
  · rfl
  · split
    · exact start_scan_report env s
    · split
      · exact start_scan_report env s
      · rfl

theorem attempt_reconnect_no_sink (env : Env) (s : BridgeState) (w : List Nat) :
    Cmd.sinkWrite w ∉ (attempt_reconnect env s).2 := by
  unfold attempt_reconnect
  split
  · simp
  · split
    · exact start_scan_no_sink env s w
    · split
      · simpa using start_scan_no_sink env s w
      · simp

/-- C1: a notification payload of at least 8 bytes, arriving while USB is
configured and the HID device exists, is copied (first 8 bytes) into the
Report Buffer and written unmodified to the Report Sink; a payload of
exactly 8 bytes reaches the sink verbatim; a payload shorter than 8 bytes
leaves the state unchanged and produces no sink write. -/
theorem c1_report_integrity (s : BridgeState) (d : List Nat)
    (husb : s.usb_configured = true) (hdev : s.hid_dev = true) :
    (8 ≤ d.length →
      (notify_func s (some d)).1.hid_report = d.take 8 ∧
      (notify_func s (some d)).2.1 = [Cmd.sinkWrite (d.take 8)]) ∧
    (d.length = 8 → (notify_func s (some d)).2.1 = [Cmd.sinkWrite d]) ∧
    (d.length < 8 →
      (notify_func s (some d)).1 = s ∧ (notify_func s (some d)).2.1 = []) := by
  refine ⟨?_, ?_, ?_⟩
  · intro h8
    simp [notify_func, h8, husb, hdev]
  · intro h8
    simp [notify_func, h8.ge, husb, hdev, List.take_of_length_le h8.le]
  · intro hlt
    simp [notify_func, Nat.not_le.mpr hlt]

/-- C1 witness at a concrete 8-byte report and a concrete short payload. -/
theorem c1_report_integrity_witness :
    idleState.usb_configured = true ∧
    (notify_func idleState (some [9, 0, 4, 5, 6, 7, 8, 3])).2.1 =
      [Cmd.sinkWrite [9, 0, 4, 5, 6, 7, 8, 3]] ∧
    (notify_func idleState (some [9, 0, 4])).2.1 = [] := by
  refine ⟨rfl, ?_, ?_⟩
  · exact (c1_report_integrity idleState [9, 0, 4, 5, 6, 7, 8, 3] rfl rfl).2.1 rfl
  · exact ((c1_report_integrity idleState [9, 0, 4] rfl rfl).2.2 (by decide)).2

/-- C3: whenever a Connection Handle is live, both start_scan and
attempt_reconnect return immediately without changing state or issuing any
scan or connect command, so the single live connection is never raced by a
second connect attempt. -/
theorem c3_single_link (env : Env) (s : BridgeState)
    (h : s.current_conn.isSome = true) :
    start_scan env s = (s, []) ∧ attempt_reconnect env s = (s, []) := by
  constructor
  · unfold start_scan
    rw [h]
    rfl
  · unfold attempt_reconnect
    rw [h]
    rfl

/-- C3 witness at the concrete connected state. -/
theorem c3_single_link_witness :
    connState.current_conn.isSome = true ∧
    start_scan env0 connState = (connState, []) ∧
    attempt_reconnect env0 connState = (connState, []) :=
  ⟨rfl, (c3_single_link env0 connState rfl).1, (c3_single_link env0 connState rfl).2⟩

/-- C4: with no live connection, attempt_reconnect delegates to start_scan
when no pairing record is valid; with a valid record it issues exactly one
direct connect to the stored address (no scan command); if that create call
fails it performs the connect attempt and then falls back to start_scan. -/
theorem c4_reconnect_paths (env : Env) (s : BridgeState)
    (h : s.current_conn = none) :
    (s.keyboard_paired = false → attempt_reconnect env s = start_scan env s) ∧
    (s.keyboard_paired = true → env.connCreateErr = 0 →
      attempt_reconnect env s = (s, [Cmd.connCreate s.keyboard_addr])) ∧
    (s.keyboard_paired = true → env.connCreateErr ≠ 0 →
      attempt_reconnect env s =
        ((start_scan env s).1, Cmd.connCreate s.keyboard_addr :: (start_scan env s).2)) := by
  refine ⟨?_, ?_, ?_⟩
  · intro hp
    simp [attempt_reconnect, h, hp]
  · intro hp he
    simp [attempt_reconnect, h, hp, he]
  · intro hp he
    simp [attempt_reconnect, h, hp, he]

/-- C4 witness: with a valid record and a succeeding create call, the trace
is exactly the direct connect to the stored address addrA. -/
theorem c4_reconnect_paths_witness :
    pairedIdle.current_conn = none ∧
    pairedIdle.keyboard_paired = true ∧
    attempt_reconnect env0 pairedIdle = (pairedIdle, [Cmd.connCreate addrA]) :=
  ⟨rfl, rfl, (c4_reconnect_paths env0 pairedIdle rfl).2.1 rfl rfl⟩

/-- C2: every disconnect, whatever the reason code, releases the Connection
Handle, zeroes the Report Buffer, makes every sink write it triggers the
all-zero report, and its trace is: the conditional zero-report push, the
1-second backoff sleep, then exactly the commands of attempt_reconnect when
a pairing record is valid and of start_scan otherwise — so the reconnection
path is re-armed within one backoff with no manual intervention. -/
theorem c2_disconnect_clears_and_rearms (env : Env) (s : BridgeState) (reason : Nat) :
    (disconnected env s reason).1.current_conn = none ∧
    (disconnected env s reason).1.hid_report = zeroReport ∧
    (∀ w, Cmd.sinkWrite w ∈ (disconnected env s reason).2 → w = zeroReport) ∧
    (disconnected env s reason).2 =
      (if s.usb_configured ∧ s.hid_dev then [Cmd.sinkWrite zeroReport] else [])
        ++ Cmd.sleepMs 1000 ::
          (if s.keyboard_paired then
            (attempt_reconnect env { s with current_conn := none, hid_report := zeroReport }).2
           else
            (start_scan env { s with current_conn := none, hid_report := zeroReport }).2) := by
  refine ⟨?_, ?_, ?_, ?_⟩
  · simp only [disconnected]
    split
    · rw [attempt_reconnect_conn]
    · rw [start_scan_conn]
  · simp only [disconnected]
    split
    · rw [attempt_reconnect_report]
    · rw [start_scan_report]
  · intro w hw
    simp only [disconnected, List.mem_append, List.mem_cons] at hw
    rcases hw with hw | hw | hw
    · revert hw
      split
      · intro hw
        simpa using hw
      · intro hw
        simp at hw
    · exact absurd hw (by simp)
    · exfalso
      revert hw
      split
      · exact fun hw => attempt_reconnect_no_sink env _ w hw
      · exact fun hw => start_scan_no_sink env _ w hw
  · by_cases hu : s.usb_configured = true <;>
      by_cases hd : s.hid_dev = true <;>
      by_cases hp : s.keyboard_paired = true <;>
      simp [disconnected, hu, hd, hp]

/-- C2 witness at the paired, USB-configured state. -/
theorem c2_disconnect_clears_and_rearms_witness :
    (disconnected env0 { connState with hid_report := [1, 2, 3, 4, 5, 6, 7, 8] } 8).1.current_conn
        = none ∧
    Cmd.sinkWrite zeroReport ∈
      (disconnected env0 { connState with hid_report := [1, 2, 3, 4, 5, 6, 7, 8] } 8).2 ∧
    zeroReport = zeroReport := by
  refine ⟨(c2_disconnect_clears_and_rearms env0 _ 8).1, by decide,
    (c2_disconnect_clears_and_rearms env0
      { connState with hid_report := [1, 2, 3, 4, 5, 6, 7, 8] } 8).2.2.1 zeroReport (by decide)⟩

/-- C5: the service phase never stops on a delivered attribute (it records
the HID-service handle and continues to the terminal callback); only the
terminal callback with a recorded match launches the characteristic phase,
from the matched service handle to 0xffff; the characteristic phase stops
on the first report-characteristic match and subscribes to its value
handle; concretely, with the HID service at handle 15 and the report
characteristic at handle 18 with value handle 19, discovery subscribes to
value handle 19. -/
theorem c5_discovery_ordering :
    (∀ ds p a, p.dtype = DiscType.primary →
      (discover_func ds p (some a)).2.2 = Iter.cont) ∧
    (∀ ds st en a,
      discover_func ds ⟨hidsUuid, DiscType.primary, st, en⟩ (some a) =
        (⟨true, a.handle⟩, DiscAction.none_, Iter.cont)) ∧
    (∀ ds st en, ds.service_found = true →
      discover_func ds ⟨hidsUuid, DiscType.primary, st, en⟩ none =
        (⟨false, ds.service_handle⟩,
         DiscAction.discover ⟨reportUuid, DiscType.characteristic, ds.service_handle, 0xffff⟩,
         Iter.stop)) ∧
    (∀ ds st en a,
      discover_func ds ⟨reportUuid, DiscType.characteristic, st, en⟩ (some a) =
        (ds, DiscAction.subscribe a.valueHandle, Iter.stop)) ∧
    runDiscovery [⟨15, 16⟩] [⟨18, 19⟩] = some 19 := by
  refine ⟨?_, ?_, ?_, ?_, by decide⟩
  · intro ds p a hp
    simp only [discover_func, hp]
    split <;> rfl
  · intro ds st en a
    simp [discover_func]
  · intro ds st en hf
    simp [discover_func, hf]
  · intro ds st en a
    simp [discover_func]

/-- C5 witness: the phase-transition conjuncts discharged at concrete
discovery states. -/
theorem c5_discovery_ordering_witness :
    discover_func ⟨true, 15⟩ ⟨hidsUuid, DiscType.primary, 1, 0xffff⟩ none =
      (⟨false, 15⟩,
       DiscAction.discover ⟨reportUuid, DiscType.characteristic, 15, 0xffff⟩,
       Iter.stop) ∧
    discover_func ⟨false, 15⟩ ⟨reportUuid, DiscType.characteristic, 15, 0xffff⟩
        (some ⟨18, 19⟩) =
      (⟨false, 15⟩, DiscAction.subscribe 19, Iter.stop) :=
  ⟨c5_discovery_ordering.2.2.1 ⟨true, 15⟩ 1 0xffff rfl,
   c5_discovery_ordering.2.2.2.1 ⟨false, 15⟩ 15 0xffff ⟨18, 19⟩⟩

/-- C6: the first subscription attempt always uses the heuristic CCC handle
value_handle + 1; a first result of 0 or -EALREADY means no retry and an
active subscription; any other first result triggers exactly one retry with
CCC auto-discovery (ccc_handle 0, end_handle value_handle + 5), after which
the relay is subscribed iff the retry returned 0 or -EALREADY; never more
than two attempts are made. -/
theorem c6_subscribe_retry (r1 r2 : Int) (vh : Nat) :
    subscribe_to_reports r1 r2 vh =
      (if r1 = 0 ∨ r1 = -EALREADY then ([⟨vh, vh + 1, 0⟩], true)
       else ([⟨vh, vh + 1, 0⟩, ⟨vh, 0, vh + 5⟩], decide (r2 = 0 ∨ r2 = -EALREADY))) ∧
    (subscribe_to_reports r1 r2 vh).1.head? = some ⟨vh, vh + 1, 0⟩ ∧
    (subscribe_to_reports r1 r2 vh).1.length ≤ 2 := by
  unfold subscribe_to_reports
  by_cases h1 : r1 = 0 ∨ r1 = -EALREADY
  · have : ¬ (r1 ≠ 0 ∧ r1 ≠ -EALREADY) := by tauto
    simp [this, h1]
  · have h1' : r1 ≠ 0 ∧ r1 ≠ -EALREADY := by tauto
    by_cases h2 : r2 = 0 ∨ r2 = -EALREADY
    · have : ¬ (r2 ≠ 0 ∧ r2 ≠ -EALREADY) := by tauto
      simp [h1', this, h1, h2]
    · have h2' : r2 ≠ 0 ∧ r2 ≠ -EALREADY := by tauto
      simp [h1', h2', h1, h2]

/-- An environment in which bt_le_scan_start fails. -/
def envScanFail : Env := ⟨0, 5, 0⟩

/-- An environment in which bt_conn_le_create fails. -/
def envCreateFail : Env := ⟨-12, 0, 0⟩

/-- C7 counterexample: when bt_le_scan_start fails, start_scan returns with
the state unchanged — not scanning — and a trace containing no backoff and
no retry, so nothing re-enters scanning without an external event; the
claim's universally quantified recovery fails at this input. -/
theorem c7_counterexample :
    start_scan envScanFail idleState = (idleState, [Cmd.scanStart]) ∧
    idleState.scanning = false ∧
    (start_scan envScanFail idleState).1.scanning = false ∧
    Cmd.sleepMs 1000 ∉ (start_scan envScanFail idleState).2 ∧
    (start_scan envScanFail idleState).2.count Cmd.scanStart = 1 := by
  refine ⟨by decide, rfl, by decide, by decide, by decide⟩

/-- C7 amended: a failing bt_conn_le_create in the scanning path
(device_found) is followed by the 1-second backoff and a start_scan call,
whose successful scan start leaves the system scanning again; but a failure
of bt_le_scan_start itself makes start_scan return with only the failed
scan-start in its trace — no retry is scheduled and the state is unchanged,
so recovery then depends on a later external event. -/
theorem c7_failure_recovery (env : Env) (s : BridgeState) (addr : Addr)
    (dataBytes : List Char)
    (hm : (occursIn targetName (dataBytes.take 29) ||
           occursIn targetNameAlt (dataBytes.take 29) ||
           occursIn targetNameAlt2 (dataBytes.take 29)) = true)
    (hstop : env.scanStopErr = 0) (hcc : env.connCreateErr ≠ 0) :
    (device_found env s addr nameComplete dataBytes).2.1 =
      Cmd.scanStop :: Cmd.sleepMs 100 :: Cmd.connCreate addr :: Cmd.sleepMs 1000 ::
        (start_scan env { s with scanning := false }).2 ∧
    (s.current_conn = none → env.scanStartErr = 0 →
      (device_found env s addr nameComplete dataBytes).1.scanning = true) ∧
    (env.scanStartErr ≠ 0 → ∀ s2 : BridgeState, s2.current_conn = none →
      start_scan env s2 = (s2, [Cmd.scanStart])) := by
  have hnc : (nameComplete = nameComplete ∨ nameComplete = nameShortened) := Or.inl rfl
  refine ⟨?_, ?_, ?_⟩
  · simp [device_found, hnc, hm, hstop, hcc]
  · intro hconn hss
    simp [device_found, hnc, hm, hstop, hcc, start_scan, hconn, hss]
  · intro hss s2 hconn
    simp [start_scan, hconn, hss]

/-- C7 witness: a concrete advertisement for "Adv360 Pro" with a failing
create call and a succeeding scan start ends with the system scanning. -/
theorem c7_failure_recovery_witness :
    (device_found envCreateFail pairedIdle addrA nameComplete "Adv360 Pro".toList).2.1 =
      Cmd.scanStop :: Cmd.sleepMs 100 :: Cmd.connCreate addrA :: Cmd.sleepMs 1000 ::
        [Cmd.scanStart] ∧
    (device_found envCreateFail pairedIdle addrA nameComplete "Adv360 Pro".toList).1.scanning
      = true := by
  have h := c7_failure_recovery envCreateFail pairedIdle addrA "Adv360 Pro".toList
    (by decide) rfl (by decide)
  exact ⟨by rw [h.1]; rfl, h.2.1 rfl rfl⟩

theorem u64sub_eq_sub (a b : Nat) (hba : b ≤ a) (ha : a < 2 ^ 64) :
    u64sub a b = a - b := by
  unfold u64sub
  rw [Nat.mod_eq_of_lt (lt_of_le_of_lt hba ha)]
  have h : 2 ^ 64 + a - b = 2 ^ 64 + (a - b) := by omega
  rw [h, Nat.add_mod_left]
  exact Nat.mod_eq_of_lt (by omega)

/-- C8: with monotonic 64-bit timestamps, a press is classified as a double
press iff it follows the previous press by strictly less than 500 ms, and
the recorded timestamp is updated on every press; a double press drives the
unpair path (pairing flag cleared, stored record cleared); concretely a
499 ms gap is a double press, a 501 ms gap a single press, and of three
presses 200 ms apart the second and third are both double presses. -/
theorem c8_double_press_threshold (t0 t1 : Nat) (s : BridgeState)
    (h1 : t0 ≤ t1) (h2 : t1 < 2 ^ 64) :
    ((button_pressed t1 { s with button_press_time := t0 }).button_double_press = true ↔
      t1 - t0 < 500) ∧
    (button_pressed t1 { s with button_press_time := t0 }).button_press_time = t1 ∧
    (∀ env s2, s2.button_double_press = true →
      (button_work_handler env s2).1.keyboard_paired = false ∧
      (button_work_handler env s2).1.stored_record = none) ∧
    (button_pressed 1499 { s with button_press_time := 1000 }).button_double_press = true ∧
    (button_pressed 1501 { s with button_press_time := 1000 }).button_double_press = false ∧
    (button_pressed 1200 (button_pressed 1000
        { s with button_press_time := 0 })).button_double_press = true ∧
    (button_pressed 1400 (button_pressed 1200 (button_pressed 1000
        { s with button_press_time := 0 }))).button_double_press = true := by
  refine ⟨?_, rfl, ?_, ?_, ?_, ?_, ?_⟩
  · simp [button_pressed, u64sub_eq_sub t1 t0 h1 h2]
  · intro env s2 hd
    have hub : button_work_handler env s2 = unpair_branch env s2 := by
      simp [button_work_handler, hd]
    rw [hub]
    by_cases hss : env.scanStartErr = 0 <;>
      simp [unpair_branch, start_scan, hss]
  · simp [button_pressed, u64sub_eq_sub 1499 1000 (by norm_num) (by norm_num)]
  · simp [button_pressed, u64sub_eq_sub 1501 1000 (by norm_num) (by norm_num)]
  · simp [button_pressed, u64sub_eq_sub 1200 1000 (by norm_num) (by norm_num)]
  · simp [button_pressed, u64sub_eq_sub 1400 1200 (by norm_num) (by norm_num)]

/-- C8 witness at concrete timestamps 1000 and 1499. -/
theorem c8_double_press_threshold_witness :
    (1000 ≤ 1499 ∧ 1499 < 2 ^ 64) ∧
    ((button_pressed 1499 { idleState with button_press_time := 1000 }).button_double_press
        = true ↔ 1499 - 1000 < 500) ∧
    (button_pressed 1499 { idleState with button_press_time := 1000 }).button_press_time
        = 1499 :=
  ⟨⟨by norm_num, by norm_num⟩,
   (c8_double_press_threshold 1000 1499 idleState (by norm_num) (by norm_num)).1,
   (c8_double_press_threshold 1000 1499 idleState (by norm_num) (by norm_num)).2.1⟩

/-- C9 counterexample: in the concrete unpaired, disconnected, USB-up boot
state, a press classified as a single press leaves the state untouched and
issues no command at all, while an actual attempt_reconnect invocation is
observably different — so a single press while disconnected does not always
invoke attempt_reconnect. -/
theorem c9_counterexample :
    idleState.current_conn = none ∧
    idleState.button_double_press = false ∧
    idleState.keyboard_paired = false ∧
    button_work_handler env0 idleState = (idleState, []) ∧
    attempt_reconnect env0 idleState ≠ (idleState, []) := by
  decide

/-- C9 amended: a press classified as a single press while no Connection
Handle is live dispatches attempt_reconnect iff a Pairing Record is also
valid; when no keyboard is paired the press does nothing. -/
theorem c9_single_press_reconnect (env : Env) (s : BridgeState)
    (hd : s.button_double_press = false) (hc : s.current_conn = none) :
    (s.keyboard_paired = true → button_work_handler env s = attempt_reconnect env s) ∧
    (s.keyboard_paired = false → button_work_handler env s = (s, [])) := by
  constructor
  · intro hp
    simp [button_work_handler, hd, hc, hp]
  · intro hp
    simp [button_work_handler, hd, hc, hp]

/-- C9 witness at the paired, disconnected state. -/
theorem c9_single_press_reconnect_witness :
    pairedIdle.button_double_press = false ∧
    pairedIdle.current_conn = none ∧
    pairedIdle.keyboard_paired = true ∧
    button_work_handler env0 pairedIdle = attempt_reconnect env0 pairedIdle :=
  ⟨rfl, rfl, rfl, (c9_single_press_reconnect env0 pairedIdle rfl rfl).1 rfl⟩

/-- C10: the unpair (double-press) branch is idempotent on the state — a
second run reproduces the same post-state — and from any prior state it
leaves no live Connection Handle, clears the pairing flag, zeroes the
stored address, clears the persisted record, and its trace is the optional
disconnect followed by the settings clear, the 100 ms settle sleep and the
fresh scan start; when the scan start succeeds the post-state is
scanning. -/
theorem c10_unpair_idempotent (env : Env) (s : BridgeState) :
    (unpair_branch env (unpair_branch env s).1).1 = (unpair_branch env s).1 ∧
    (unpair_branch env s).1.current_conn = none ∧
    (unpair_branch env s).1.keyboard_paired = false ∧
    (unpair_branch env s).1.keyboard_addr = zeroAddr ∧
    (unpair_branch env s).1.stored_record = none ∧
    (unpair_branch env s).1.button_double_press = false ∧
    (env.scanStartErr = 0 → (unpair_branch env s).1.scanning = true) ∧
    (unpair_branch env s).2 =
      (if s.current_conn.isSome then [Cmd.disconnectConn] else []) ++
        Cmd.settingsSave none :: Cmd.sleepMs 100 :: [Cmd.scanStart] := by
  by_cases hss : env.scanStartErr = 0 <;>
    by_cases hc : s.current_conn.isSome = true <;>
    simp [unpair_branch, start_scan, hss, hc]

/-- C10 witness: running the unpair branch twice from the connected state
gives the same post-state as running it once, which is scanning. -/
theorem c10_unpair_idempotent_witness :
    env0.scanStartErr = 0 ∧
    (unpair_branch env0 (unpair_branch env0 connState).1).1 =
      (unpair_branch env0 connState).1 ∧
    (unpair_branch env0 connState).1.scanning = true :=
  ⟨rfl, (c10_unpair_idempotent env0 connState).1,
   (c10_unpair_idempotent env0 connState).2.2.2.2.2.2.1 rfl⟩

end BleBridge
